import Mathlib

/-!
Verification of the option-mapping, error-handling and listing logic of
the YouTube downloader script (src/Scripts/youtube_downloader.py).
The Python code is shallowly embedded: dictionaries become structures or
association lists, exceptions become explicit outcome types, and terminal
output becomes lists of event values.
-/

namespace YtDownloader

/-- ANSI color codes from the class Colors in the script. -/
def Colors_OKBLUE : String := "\x1b[94m"

/-- Color code Colors.OKGREEN. -/
def Colors_OKGREEN : String := "\x1b[92m"

/-- Color code Colors.WARNING. -/
def Colors_WARNING : String := "\x1b[93m"

/-- Color code Colors.FAIL. -/
def Colors_FAIL : String := "\x1b[91m"

/-- Color code Colors.ENDC. -/
def Colors_ENDC : String := "\x1b[0m"

/-- The text printed by print_success (line 22): the message wrapped in green. -/
def print_success (message : String) : String := Colors_OKGREEN ++ message ++ Colors_ENDC

/-- The text printed by print_error (line 25): the message wrapped in red. -/
def print_error (message : String) : String := Colors_FAIL ++ message ++ Colors_ENDC

/-- The text printed by print_info (line 28): the message wrapped in blue. -/
def print_info (message : String) : String := Colors_OKBLUE ++ message ++ Colors_ENDC

/-- The text printed by print_warning (line 31): the message wrapped in yellow. -/
def print_warning (message : String) : String := Colors_WARNING ++ message ++ Colors_ENDC

/-- A post-processing directive dictionary as placed in ydl_opts
(lines 105-108 and 129-132): either audio extraction with a preferred
codec, or video container conversion with a preferred format. -/
inductive Postprocessor where
  | ffmpegExtractAudio (preferredcodec : String)
  | ffmpegVideoConvertor (preferedformat : String)
deriving DecidableEq

/-- The ydl_opts dictionary built by download_video, restricted to the
keys the script sets: outtmpl and quiet (line 95-99), format (set in
every branch, lines 103, 121, 123, 125) and postprocessors (attached
only in some branches, hence an Option). The progress_hooks entry is the
constant singleton [progress_hook] and carries no data. -/
structure YdlOpts where
  outtmpl : String
  quiet : Bool
  format : Option String
  postprocessors : Option (List Postprocessor)
deriving DecidableEq

/-- The local variable format_filter of download_video (lines 113-118). -/
def format_filter (format : String) : String :=
  if format = "mp4" then "bestvideo[ext=mp4]+bestaudio[ext=m4a]/best[ext=mp4]/best"
  else "bestvideo+bestaudio/best"

/-- Result of the option-building part of download_video (lines 90-134):
the ydl_opts dictionary together with the warning messages printed while
building it, in order. -/
structure OptionsResult where
  opts : YdlOpts
  warnings : List String
deriving DecidableEq

/-- The option-building part of download_video (lines 90-134), a pure
function of output_path, quality, format, audio_only and the result
has_ffmpeg of check_ffmpeg. Mirrors the source branch for branch. -/
def build_ydl_opts (output_path quality format : String)
    (audio_only has_ffmpeg : Bool) : OptionsResult :=
  let base : YdlOpts :=
    { outtmpl := output_path ++ "/%(title)s.%(ext)s", quiet := true,
      format := none, postprocessors := none }
  let preWarnings : List String :=
    if has_ffmpeg then []
    else [print_warning ("\nWarning: FFmpeg not found. Some format conversions may not work properly."),
          print_warning ("For best results, install FFmpeg and add it to your PATH.")]
  if audio_only then
    let opts1 := { base with format := some "bestaudio/best" }
    if has_ffmpeg then
      let codec :=
        if format ∈ ["mp3", "aac", "flac", "m4a", "opus", "vorbis", "wav"] then format else "mp3"
      { opts := { opts1 with postprocessors := some [Postprocessor.ffmpegExtractAudio codec] },
        warnings := preWarnings }
    else
      { opts := opts1,
        warnings := preWarnings
          ++ [print_warning ("Downloading in original audio format (no FFmpeg for conversion)")] }
  else
    let filt := format_filter format
    let opts1 :=
      if quality = "best" then { base with format := some filt }
      else if quality = "worst" then { base with format := some "worst" }
      else { base with format := some (filt ++ "[height<=" ++ quality.dropRight 1 ++ "]") }
    if format = "mp4" then
      { opts := opts1, warnings := preWarnings }
    else if has_ffmpeg then
      { opts := { opts1 with postprocessors := some [Postprocessor.ffmpegVideoConvertor format] },
        warnings := preWarnings }
    else
      { opts := opts1,
        warnings := preWarnings
          ++ [print_warning ("Cannot convert to " ++ format ++ " - FFmpeg not found. Downloading in original format.")] }

/-- check_ffmpeg (lines 53-59). The probe argument models the outcome of
the call FFmpegPostProcessor().check_version(): ok when the transcoder
responded, error with the raised exception otherwise; the except clause
turns any failure into False. -/
def check_ffmpeg (probe : Except String Unit) : Bool :=
  match probe with
  | Except.ok _ => true
  | Except.error _ => false

/-- Association-list model of a Python dict of strings; dictGet models
d.get(k) returning None when absent. -/
def dictGet (d : List (String × String)) (k : String) : Option String :=
  (d.find? (fun p => p.1 == k)).map (fun p => p.2)

/-- Model of d.get(k, default). -/
def dictGetD (d : List (String × String)) (k default : String) : String :=
  (dictGet d k).getD default

/-- progress_hook (lines 44-51). Bracket access to the status key raises
KeyError when absent, modelled by Except.error; otherwise the result is
the text printed, none when the status is neither downloading nor
finished and nothing is printed. -/
def progress_hook (d : List (String × String)) : Except String (Option String) :=
  match dictGet d "status" with
  | none => Except.error ("KeyError: status")
  | some s =>
    if s = "downloading" then
      Except.ok (some ("\rProgress: " ++ dictGetD d "_percent_str" "N/A"
        ++ " | Speed: " ++ dictGetD d "_speed_str" "N/A"
        ++ " | ETA: " ++ dictGetD d "_eta_str" "N/A"))
    else if s = "finished" then
      Except.ok (some ("\rDownload complete! Finalizing file..."))
    else Except.ok none

/-- Exceptions distinguished by the three except clauses of
download_video (lines 159-164): the download error and the extractor
error of the wrapped library (two independent exception classes, neither
a subclass of the other), and any other exception carrying its runtime
type name. -/
inductive PyExc where
  | downloadError (msg : String)
  | extractorError (msg : String)
  | otherExc (tyName : String) (msg : String)
deriving DecidableEq

/-- The label printed for a caught exception (lines 159-164): one
distinct label per except clause, the third also showing the runtime
type name of the exception. -/
def excLabel : PyExc → String
  | PyExc.downloadError m => "\nDownload Error: " ++ m
  | PyExc.extractorError m => "\nExtractor Error: " ++ m
  | PyExc.otherExc ty m => "\nUnexpected Error: " ++ ty ++ ": " ++ m

/-- The info dict returned by ydl.extract_info when truthy, restricted
to the fields download_video reads: title, duration, and the number of
playlist entries when the entries key is present. -/
structure VideoInfo where
  title : Option String
  duration : Option Nat
  entries : Option Nat
deriving DecidableEq

/-- Outcome of the ydl.extract_info call on line 139: it raises, or it
returns an info object (none modelling a falsy one). -/
inductive ExtractOutcome where
  | raises (e : PyExc)
  | returns (info : Option VideoInfo)
deriving DecidableEq

/-- Outcome of the ydl.download call on line 153. -/
inductive DownloadOutcome where
  | raises (e : PyExc)
  | ok
deriving DecidableEq

/-- Behaviour of the wrapped library during one download_video run. -/
structure LibBehavior where
  extract : ExtractOutcome
  download : DownloadOutcome
deriving DecidableEq

/-- One observable output action of the try/except body of
download_video. -/
inductive Event where
  | printedInfo (s : String)
  | printedError (s : String)
  | printedPlain (s : String)
  | printedSuccess (s : String)
  | calledDownload
deriving DecidableEq

/-- The try/except body of download_video (lines 136-166) given the
library behaviour: the ordered list of output events and the boolean
return value. A falsy info object returns False before the download
call; an exception from extract_info or from download is caught by the
matching except clause, printed with its label, and turned into a False
return with no retry. -/
def run_download (url output_path quality format : String) (lib : LibBehavior) :
    List Event × Bool :=
  let pre := [Event.printedInfo (print_info ("\nDownloading: " ++ url))]
  match lib.extract with
  | ExtractOutcome.raises e =>
      (pre ++ [Event.printedError (print_error (excLabel e))], false)
  | ExtractOutcome.returns none =>
      (pre ++ [Event.printedError (print_error ("Error: Could not extract video information"))],
       false)
  | ExtractOutcome.returns (some info) =>
      let metaPrints :=
        [Event.printedInfo (print_info ("\nTitle: " ++ info.title.getD "Unknown")),
         Event.printedInfo (print_info ("Duration: "
           ++ (match info.duration with
               | some n => toString n
               | none => "N/A") ++ " seconds")),
         Event.printedInfo (print_info ("Quality: " ++ quality)),
         Event.printedInfo (print_info ("Requested Format: " ++ format.toUpper))]
      let playlistPrints := match info.entries with
        | some n => [Event.printedInfo (print_info ("Videos in playlist: " ++ toString n))]
        | none => []
      let mid := pre ++ metaPrints ++ playlistPrints
        ++ [Event.printedPlain ("\nStarting download..."), Event.calledDownload]
      match lib.download with
      | DownloadOutcome.ok =>
          (mid ++ [Event.printedSuccess (print_success ("\nDownload complete!")),
                   Event.printedInfo (print_info ("Saved to: " ++ output_path))], true)
      | DownloadOutcome.raises e =>
          (mid ++ [Event.printedError (print_error (excLabel e))], false)

/-- The exit behaviour of main after the download_video call
(lines 210-219): exit code 1 when it returned False, 0 otherwise. -/
def main_exit_code (success : Bool) : Nat := if success then 0 else 1

/-- A format descriptor dict as consumed by the listing loop
(lines 200-204): format_id is accessed with brackets, ext, resolution
and format_note via .get with defaults, and height is the sort key
field read with .get and default 0. -/
structure FormatDescriptor where
  format_id : String
  ext : Option String
  resolution : Option String
  format_note : Option String
  height : Option Nat
deriving DecidableEq

/-- The sort key of line 200: x.get with key height and default 0. -/
def heightKey (f : FormatDescriptor) : Nat := f.height.getD 0

/-- The sorted call on line 200: Python sorted is a stable ascending
merge sort by the key function, modelled by List.mergeSort. -/
def sortedByHeight (formats : List FormatDescriptor) : List FormatDescriptor :=
  formats.mergeSort (fun a b => decide (heightKey a ≤ heightKey b))

/-- One printed line of the listing loop (lines 201-204). -/
def formatLine (f : FormatDescriptor) : String :=
  "ID: " ++ f.format_id ++ " | " ++ (f.ext.getD "?").toUpper
    ++ " | " ++ f.resolution.getD "?" ++ " | " ++ f.format_note.getD ""

/-- The list-formats branch of main (lines 196-208) given the outcome of
get_available_formats: the printed lines in order and the process exit
code. On an exception nothing but the error line is printed and the exit
code is 1; on success the header, one line per descriptor in sorted
order, and exit code 0. -/
def list_formats_run (result : Except String (List FormatDescriptor)) :
    List String × Nat :=
  match result with
  | Except.error e => ([print_error ("Error listing formats: " ++ e)], 1)
  | Except.ok formats =>
      (("\nAvailable Formats:") :: (sortedByHeight formats).map formatLine, 0)

lemma video_opts_format (dir q format : String) (ff : Bool)
    (h1 : q ≠ "best") (h2 : q ≠ "worst") :
    (build_ydl_opts dir q format false ff).opts.format
      = some (format_filter format ++ "[height<=" ++ q.dropRight 1 ++ "]") := by
  cases ff <;> by_cases hf : format = "mp4" <;>
    simp [build_ydl_opts, format_filter, hf, h1, h2]

lemma video_opts_postprocessors (dir q format : String) (ff : Bool) :
    (build_ydl_opts dir q format false ff).opts.postprocessors
      = if format = "mp4" then none
        else if ff then some [Postprocessor.ffmpegVideoConvertor format] else none := by
  by_cases h1 : q = "best" <;> by_cases h2 : q = "worst" <;>
    cases ff <;> by_cases hf : format = "mp4" <;>
    simp [build_ydl_opts, h1, h2, hf]

lemma video_warnings (dir q format : String) (ff : Bool) :
    (build_ydl_opts dir q format false ff).warnings
      = (if ff then []
         else [print_warning ("\nWarning: FFmpeg not found. Some format conversions may not work properly."),
               print_warning ("For best results, install FFmpeg and add it to your PATH.")])
        ++ (if format ≠ "mp4" ∧ ff = false
            then [print_warning ("Cannot convert to " ++ format ++ " - FFmpeg not found. Downloading in original format.")]
            else []) := by
  by_cases h1 : q = "best" <;> by_cases h2 : q = "worst" <;>
    cases ff <;> by_cases hf : format = "mp4" <;>
    simp [build_ydl_opts, h1, h2, hf]

lemma audio_opts (dir q format : String) (ff : Bool) :
    (build_ydl_opts dir q format true ff).opts
      = { outtmpl := dir ++ "/%(title)s.%(ext)s", quiet := true,
          format := some "bestaudio/best",
          postprocessors :=
            if ff then
              some [Postprocessor.ffmpegExtractAudio
                (if format ∈ ["mp3", "aac", "flac", "m4a", "opus", "vorbis", "wav"]
                 then format else "mp3")]
            else none } := by
  cases ff <;> simp [build_ydl_opts]

/-- C1: in the video path, quality best leaves the format filter
unchanged, quality worst overrides the selector to worst, a resolution
tier appends a height bound equal to its numeric prefix, and the run
with quality 720p, format mp4 yields exactly the documented selector
with the title/extension output template and no post-processing
directive. -/
theorem C1_video_quality_mapping (dir format q : String) (ff : Bool) :
    ((build_ydl_opts dir "best" format false ff).opts.format = some (format_filter format))
    ∧ ((build_ydl_opts dir "worst" format false ff).opts.format = some "worst")
    ∧ (q ≠ "best" → q ≠ "worst" →
        (build_ydl_opts dir q format false ff).opts.format
          = some (format_filter format ++ "[height<=" ++ q.dropRight 1 ++ "]"))
    ∧ (∀ p ∈ [("144p", "144"), ("240p", "240"), ("360p", "360"), ("480p", "480"),
              ("720p", "720"), ("1080p", "1080"), ("1440p", "1440"), ("2160p", "2160")],
        (build_ydl_opts dir p.1 format false ff).opts.format
          = some (format_filter format ++ "[height<=" ++ p.2 ++ "]"))
    ∧ ((build_ydl_opts dir "720p" "mp4" false ff).opts
        = { outtmpl := dir ++ "/%(title)s.%(ext)s", quiet := true,
            format := some "bestvideo[ext=mp4]+bestaudio[ext=m4a]/best[ext=mp4]/best[height<=720]",
            postprocessors := none }) := by
  refine ⟨?_, ?_, ?_, ?_, ?_⟩
  · cases ff <;> by_cases hf : format = "mp4" <;>
      simp [build_ydl_opts, format_filter, hf]
  · cases ff <;> by_cases hf : format = "mp4" <;>
      simp [build_ydl_opts, format_filter, hf]
  · exact video_opts_format dir q format ff
  · intro p hp
    fin_cases hp <;>
      rw [video_opts_format dir _ format ff (by decide) (by decide)] <;>
      simp only [(show ("144p").dropRight 1 = "144" by decide),
        (show ("240p").dropRight 1 = "240" by decide),
        (show ("360p").dropRight 1 = "360" by decide),
        (show ("480p").dropRight 1 = "480" by decide),
        (show ("720p").dropRight 1 = "720" by decide),
        (show ("1080p").dropRight 1 = "1080" by decide),
        (show ("1440p").dropRight 1 = "1440" by decide),
        (show ("2160p").dropRight 1 = "2160" by decide)]
  · cases ff <;> simp [build_ydl_opts, format_filter] <;> decide

/-- C1 witness: the tier 720p with format mp4 concretely yields the
documented selector. -/
theorem C1_video_quality_mapping_witness :
    (build_ydl_opts "./downloads" "720p" "mp4" false true).opts.format
      = some ("bestvideo[ext=mp4]+bestaudio[ext=m4a]/best[ext=mp4]/best" ++ "[height<=" ++ "720" ++ "]") :=
  (C1_video_quality_mapping "./downloads" "mp4" "720p" true).2.2.2.1
    ("720p", "720") (by decide)

/-- C2: with audio_only and the transcoder available, the selector is
bestaudio/best and exactly one audio-extraction directive is attached,
whose preferred codec is the requested format when it is one of the
seven supported codecs and mp3 otherwise; in particular format flac
yields codec flac. -/
theorem C2_audio_with_ffmpeg (dir q format : String) :
    ((build_ydl_opts dir q format true true).opts.format = some "bestaudio/best")
    ∧ ((build_ydl_opts dir q format true true).opts.postprocessors
        = some [Postprocessor.ffmpegExtractAudio
            (if format ∈ ["mp3", "aac", "flac", "m4a", "opus", "vorbis", "wav"]
             then format else "mp3")])
    ∧ ((build_ydl_opts dir q "flac" true true).opts.postprocessors
        = some [Postprocessor.ffmpegExtractAudio "flac"]) := by
  refine ⟨?_, ?_, ?_⟩
  · simp [audio_opts]
  · simp [audio_opts]
  · simp [audio_opts]

/-- C3: in the video path a container-conversion directive targeting the
requested format is attached exactly when the format is not mp4 and the
transcoder is available; format mp4 never gets one, and a missing
transcoder with a non-mp4 format produces the warning and no
directive. -/
theorem C3_video_conversion_directive (dir q format : String) (ff : Bool) :
    ((build_ydl_opts dir q format false ff).opts.postprocessors
        = some [Postprocessor.ffmpegVideoConvertor format]
      ↔ (format ≠ "mp4" ∧ ff = true))
    ∧ ((build_ydl_opts dir q "mp4" false ff).opts.postprocessors = none)
    ∧ (format ≠ "mp4" → ff = false →
        (build_ydl_opts dir q format false ff).opts.postprocessors = none
        ∧ print_warning ("Cannot convert to " ++ format ++ " - FFmpeg not found. Downloading in original format.")
            ∈ (build_ydl_opts dir q format false ff).warnings) := by
  refine ⟨?_, ?_, ?_⟩
  · rw [video_opts_postprocessors]
    by_cases hf : format = "mp4" <;> cases ff <;> simp [hf]
  · rw [video_opts_postprocessors]
    simp
  · intro hf hff
    subst hff
    constructor
    · rw [video_opts_postprocessors]
      simp [hf]
    · rw [video_warnings]
      simp [hf]

/-- C3 witness: format webm without transcoder concretely yields no
directive and the warning. -/
theorem C3_video_conversion_directive_witness :
    (build_ydl_opts "./downloads" "best" "webm" false false).opts.postprocessors = none
    ∧ print_warning ("Cannot convert to " ++ "webm" ++ " - FFmpeg not found. Downloading in original format.")
        ∈ (build_ydl_opts "./downloads" "best" "webm" false false).warnings :=
  (C3_video_conversion_directive "./downloads" "best" "webm" false).2.2 (by decide) rfl

/-- C4: with audio_only and the transcoder unavailable, no
post-processing directive is attached and the selector is always
bestaudio/best, for every quality and format. -/
theorem C4_audio_no_ffmpeg (dir q format : String) :
    ((build_ydl_opts dir q format true false).opts.postprocessors = none)
    ∧ ((build_ydl_opts dir q format true false).opts.format = some "bestaudio/best") := by
  constructor <;> simp [audio_opts]

/-- C8: in audio-only mode the quality argument has no effect on the
options dictionary: any two quality values produce identical options
for the same directory, format and transcoder availability. -/
theorem C8_audio_quality_noninterference (dir q1 q2 format : String) (ff : Bool) :
    (build_ydl_opts dir q1 format true ff).opts
      = (build_ydl_opts dir q2 format true ff).opts := by
  rw [audio_opts, audio_opts]

/-- C7: the transcoder availability check is total: it returns a
boolean for every probe outcome, any failure of the probe yields false,
and a successful probe yields true. -/
theorem C7_check_ffmpeg_total (probe : Except String Unit) :
    (check_ffmpeg probe = true ∨ check_ffmpeg probe = false)
    ∧ (∀ e, probe = Except.error e → check_ffmpeg probe = false)
    ∧ (∀ u, probe = Except.ok u → check_ffmpeg probe = true) := by
  refine ⟨?_, ?_, ?_⟩
  · cases probe <;> simp [check_ffmpeg]
  · intro e he
    subst he
    rfl
  · intro u hu
    subst hu
    rfl

/-- C7 witness: a concrete failing probe yields false. -/
theorem C7_check_ffmpeg_total_witness :
    check_ffmpeg (Except.error "ffmpeg not found") = false :=
  (C7_check_ffmpeg_total (Except.error "ffmpeg not found")).2.1 "ffmpeg not found" rfl

lemma excLabel_get1_dl (m : String) :
    (excLabel (PyExc.downloadError m)).data.get? 1 = some 'D' := by
  show (("\nDownload Error: " ++ m)).data.get? 1 = some 'D'
  rw [String.data_append]
  rw [List.get?_append (by decide)]
  decide

lemma excLabel_get1_ex (m : String) :
    (excLabel (PyExc.extractorError m)).data.get? 1 = some 'E' := by
  show (("\nExtractor Error: " ++ m)).data.get? 1 = some 'E'
  rw [String.data_append]
  rw [List.get?_append (by decide)]
  decide

lemma excLabel_get1_other (ty m : String) :
    (excLabel (PyExc.otherExc ty m)).data.get? 1 = some 'U' := by
  show ((("\nUnexpected Error: " ++ ty) ++ ": ") ++ m).data.get? 1 = some 'U'
  rw [String.data_append, String.data_append, String.data_append]
  simp only [List.append_assoc]
  rw [List.get?_append (by decide)]
  decide

lemma excLabel_ne_dl_ex (m1 m2 : String) :
    excLabel (PyExc.downloadError m1) ≠ excLabel (PyExc.extractorError m2) := by
  intro h
  have h1 := excLabel_get1_dl m1
  rw [h, excLabel_get1_ex] at h1
  exact absurd h1 (by decide)

lemma excLabel_ne_dl_other (m1 ty m2 : String) :
    excLabel (PyExc.downloadError m1) ≠ excLabel (PyExc.otherExc ty m2) := by
  intro h
  have h1 := excLabel_get1_dl m1
  rw [h, excLabel_get1_other] at h1
  exact absurd h1 (by decide)

lemma excLabel_ne_ex_other (m1 ty m2 : String) :
    excLabel (PyExc.extractorError m1) ≠ excLabel (PyExc.otherExc ty m2) := by
  intro h
  have h1 := excLabel_get1_ex m1
  rw [h, excLabel_get1_other] at h1
  exact absurd h1 (by decide)

lemma run_download_count_le_one (url dir q format : String) (lib : LibBehavior) :
    ((run_download url dir q format lib).1.count Event.calledDownload) ≤ 1 := by
  rcases lib with ⟨ext, dl⟩
  cases ext with
  | raises e => simp [run_download]
  | returns oinfo =>
    cases oinfo with
    | none => simp [run_download]
    | some i =>
      rcases i with ⟨t, du, en⟩
      cases en <;> cases dl <;>
        simp [run_download, List.count_append, List.count_cons]

/-- C5: download_video distinguishes exactly three failure kinds with
pairwise distinct labels (the third carrying the runtime type name),
every such failure yields a False return with no retry (the download
call occurs at most once in any run), and the caller turns a False
return into exit code 1. -/
theorem C5_failure_taxonomy (url dir q format m1 m2 ty : String)
    (lib : LibBehavior) (e : PyExc) :
    (excLabel (PyExc.downloadError m1) ≠ excLabel (PyExc.extractorError m2)
      ∧ excLabel (PyExc.downloadError m1) ≠ excLabel (PyExc.otherExc ty m2)
      ∧ excLabel (PyExc.extractorError m1) ≠ excLabel (PyExc.otherExc ty m2)
      ∧ excLabel (PyExc.otherExc ty m1) = "\nUnexpected Error: " ++ ty ++ ": " ++ m1)
    ∧ (lib.extract = ExtractOutcome.raises e →
        run_download url dir q format lib
          = ([Event.printedInfo (print_info ("\nDownloading: " ++ url)),
              Event.printedError (print_error (excLabel e))], false))
    ∧ (∀ i, lib.extract = ExtractOutcome.returns (some i) →
        lib.download = DownloadOutcome.raises e →
        ((run_download url dir q format lib).2 = false
          ∧ Event.printedError (print_error (excLabel e))
              ∈ (run_download url dir q format lib).1))
    ∧ ((run_download url dir q format lib).1.count Event.calledDownload ≤ 1)
    ∧ (main_exit_code false = 1) := by
  refine ⟨⟨excLabel_ne_dl_ex m1 m2, excLabel_ne_dl_other m1 ty m2,
      excLabel_ne_ex_other m1 ty m2, rfl⟩, ?_, ?_, run_download_count_le_one url dir q format lib, rfl⟩
  · intro he
    simp [run_download, he]
  · intro i hi hd
    rcases i with ⟨t, du, en⟩
    cases en <;> simp [run_download, hi, hd]

/-- C5 witness: a concrete extraction failure produces the labelled
error print and the False return. -/
theorem C5_failure_taxonomy_witness :
    run_download "u" "./downloads" "best" "mp4"
        ⟨ExtractOutcome.raises (PyExc.downloadError "boom"), DownloadOutcome.ok⟩
      = ([Event.printedInfo (print_info ("\nDownloading: " ++ "u")),
          Event.printedError (print_error (excLabel (PyExc.downloadError "boom")))], false) :=
  (C5_failure_taxonomy "u" "./downloads" "best" "mp4" "a" "b" "T"
      ⟨ExtractOutcome.raises (PyExc.downloadError "boom"), DownloadOutcome.ok⟩
      (PyExc.downloadError "boom")).2.1 rfl

/-- C9: a falsy extraction result makes download_video print the error
and return False without ever calling download; the download call is
reached only after a truthy extraction result. -/
theorem C9_falsy_info_no_download (url dir q format : String) (lib : LibBehavior) :
    (lib.extract = ExtractOutcome.returns none →
      run_download url dir q format lib
        = ([Event.printedInfo (print_info ("\nDownloading: " ++ url)),
            Event.printedError (print_error ("Error: Could not extract video information"))],
           false))
    ∧ (Event.calledDownload ∈ (run_download url dir q format lib).1 →
        ∃ i, lib.extract = ExtractOutcome.returns (some i)) := by
  constructor
  · intro h
    simp [run_download, h]
  · rcases lib with ⟨ext, dl⟩
    cases ext with
    | raises e =>
      intro hmem
      exact absurd hmem (by simp [run_download])
    | returns oinfo =>
      cases oinfo with
      | none =>
        intro hmem
        exact absurd hmem (by simp [run_download])
      | some i => exact fun _ => ⟨i, rfl⟩

/-- C9 witness: a concrete falsy extraction yields exactly the error
print and False, with no download event. -/
theorem C9_falsy_info_no_download_witness :
    run_download "u" "./downloads" "best" "mp4"
        ⟨ExtractOutcome.returns none, DownloadOutcome.ok⟩
      = ([Event.printedInfo (print_info ("\nDownloading: " ++ "u")),
          Event.printedError (print_error ("Error: Could not extract video information"))],
         false) :=
  (C9_falsy_info_no_download "u" "./downloads" "best" "mp4"
      ⟨ExtractOutcome.returns none, DownloadOutcome.ok⟩).1 rfl

/-- C10: the progress hook succeeds on every event dict that has a
status key, with missing percent, speed and ETA fields rendered as the
N/A default, an unknown status producing no output, and a dict lacking
the status key being exactly the inputs on which it fails. -/
theorem C10_progress_hook_total (d : List (String × String)) :
    ((∃ v, dictGet d "status" = some v) → ∃ out, progress_hook d = Except.ok out)
    ∧ (dictGet d "status" = some "downloading" →
        dictGet d "_percent_str" = none → dictGet d "_speed_str" = none →
        dictGet d "_eta_str" = none →
        progress_hook d = Except.ok (some ("\rProgress: N/A | Speed: N/A | ETA: N/A")))
    ∧ (∀ s, dictGet d "status" = some s → s ≠ "downloading" → s ≠ "finished" →
        progress_hook d = Except.ok none)
    ∧ ((∃ e, progress_hook d = Except.error e) ↔ dictGet d "status" = none) := by
  refine ⟨?_, ?_, ?_, ?_⟩
  · rintro ⟨v, hv⟩
    simp [progress_hook, hv]
    split_ifs <;> simp
  · intro h1 h2 h3 h4
    simp [progress_hook, dictGetD, h1, h2, h3, h4]
  · intro s hs hne1 hne2
    simp [progress_hook, hs, hne1, hne2]
  · constructor
    · rintro ⟨e, he⟩
      cases h : dictGet d "status" with
      | none => rfl
      | some s =>
        simp only [progress_hook, h] at he
        split_ifs at he
    · intro h
      exact ⟨"KeyError: status", by simp [progress_hook, h]⟩

/-- C10 witness: a concrete downloading event with no percent, speed or
ETA fields renders the N/A defaults. -/
theorem C10_progress_hook_total_witness :
    progress_hook [("status", "downloading")]
      = Except.ok (some ("\rProgress: N/A | Speed: N/A | ETA: N/A")) :=
  (C10_progress_hook_total [("status", "downloading")]).2.1
    (by decide) (by decide) (by decide) (by decide)

/-- C6: the list-formats branch prints the header plus one line per
available format descriptor sorted ascending by the height key, where a
missing height counts as zero and hence sorts first, and exits 0; on an
extraction error it prints only the error line and exits 1. -/
theorem C6_list_formats (formats : List FormatDescriptor) (e : String) :
    ((list_formats_run (Except.ok formats)).2 = 0)
    ∧ ((list_formats_run (Except.ok formats)).1
        = ("\nAvailable Formats:") :: (sortedByHeight formats).map formatLine)
    ∧ ((sortedByHeight formats).length = formats.length)
    ∧ List.Perm (sortedByHeight formats) formats
    ∧ (sortedByHeight formats).Pairwise (fun a b => heightKey a ≤ heightKey b)
    ∧ (∀ f g, f.height = none → heightKey f ≤ heightKey g)
    ∧ (list_formats_run (Except.error e)
        = ([print_error ("Error listing formats: " ++ e)], 1)) := by
  refine ⟨rfl, rfl, ?_, ?_, ?_, ?_, rfl⟩
  · exact (List.mergeSort_perm formats _).length_eq
  · exact List.mergeSort_perm formats _
  · have hs : (List.mergeSort formats
        (fun a b => decide (heightKey a ≤ heightKey b))).Pairwise
        (fun a b => (decide (heightKey a ≤ heightKey b)) = true) :=
      List.sorted_mergeSort
        (fun a b c hab hbc => by
          simp only [decide_eq_true_eq] at *
          omega)
        (fun a b => by
          simp only [Bool.or_eq_true, decide_eq_true_eq]
          omega)
        formats
    exact hs.imp (fun h => by simpa using h)
  · intro f g h
    simp [heightKey, h]

/-- C6 witness: a descriptor lacking a height has sort key zero. -/
theorem C6_list_formats_witness :
    heightKey { format_id := "sb0", ext := none, resolution := none,
                format_note := none, height := none }
      ≤ heightKey { format_id := "137", ext := some "mp4", resolution := some "1920x1080",
                    format_note := some "1080p", height := some 1080 } :=
  (C6_list_formats [] "err").2.2.2.2.2.1 _ _ rfl

end YtDownloader
